import Mathlib

/-!
Verification of the client-side presence/chat/notification synchronization
layer of the Prepwise-LetAI web application, shallowly embedded in Lean.

The embedding translates the pure reconciliation and state-machine logic of
`FlashcardView.tsx`, `PresenceRoster.tsx`, `ChatWidget.tsx`,
`NotificationsPage.tsx` and the `HeaderBanner` component:

* React `useState` hooks of `FlashcardView` become fields of `QuizState`;
  browser-local quiz persistence becomes the `slot` field of `QuizWorld`.
* Each relevant `useEffect` or event handler becomes a step function on
  `QuizWorld`; the asynchronous 500ms / 1s delays are abstracted to discrete
  steps (one monitor tick per elapsed second).
* JavaScript objects used as maps (`Record<number,string>`,
  `Record<string,boolean>`) become association lists with the same
  lookup/update semantics; JavaScript `Map` insertion keeps the first
  insertion position and the last written value.
* `Array.prototype.sort` with a comparator is a stable sort, modelled by
  `List.insertionSort` over the non-strict relation `cmp a b <= 0`.
* Timestamps (`Date.now()`, `createdAt`, `lastSeen`) are naturals
  (epoch milliseconds); `Math.round` is `round` on `Rat`.
* Presentation-only state (AI-explanation text, sound toggle, flip state,
  CSS) is elided: no transition relevant to the claims reads it.
-/

/-- Study mode of `FlashcardView` (`type StudyMode`). -/
inductive StudyMode where
  | flashcard
  | quiz
deriving DecidableEq, Repr

/-- Quiz difficulty (`type QuizDifficulty`). -/
inductive QuizDifficulty where
  | hard
  | medium
  | easy
  | practice
deriving DecidableEq, Repr

/-- Parsed question shape (`interface Question`). -/
structure Question where
  number : Nat
  question : String
  choices : List String
  correct_answer : String
deriving DecidableEq, Repr

/-- The `useState` hooks of `FlashcardView` that the quiz state machine
reads or writes. -/
structure QuizState where
  currentQuestionIndex : Nat
  selectedAnswers : List (Nat × String)
  showAnswers : Bool
  studyMode : StudyMode
  quizTimer : Nat
  quizFinished : Bool
  quizAborted : Bool
  quizStarted : Bool
  selectedTimerPerQuestion : Nat
  quizDifficulty : Option QuizDifficulty
  connectionLost : Bool
  offlineSince : Option Nat
  cheatingDetected : Bool
  offlineTimeoutWarning : Bool
  offlineElapsedSeconds : Nat
  shuffledQuestions : List Question
  loading : Bool
deriving DecidableEq, Repr

/-- Snapshot persisted by the auto-save effect (`sessionData` object built in
the effect at FlashcardView lines 124-135). -/
structure SessionData where
  flashcardId : String
  currentQuestionIndex : Nat
  selectedAnswers : List (Nat × String)
  studyMode : StudyMode
  quizTimer : Nat
  selectedTimerPerQuestion : Nat
  quizStarted : Bool
  timestamp : Nat
  cheatingDetected : Bool
  offlineSince : Option Nat
deriving DecidableEq, Repr

/-- The component state together with the per-flashcard persisted slot
(`offlineStorage.setQuizSession` / `deleteQuizSession`). -/
structure QuizWorld where
  st : QuizState
  slot : Option SessionData
deriving DecidableEq, Repr

/-- Lookup in `selectedAnswers` (JavaScript `selectedAnswers[q.number]`). -/
def lookupAnswer (ans : List (Nat × String)) (n : Nat) : Option String :=
  (ans.find? fun p => p.fst == n).map Prod.snd

/-- Score result of `calculateScore`. -/
structure Score where
  correct : Nat
  total : Nat
  percentage : Int
deriving DecidableEq, Repr

/-- Translation of `calculateScore` (FlashcardView lines 466-478): count the
questions whose selected answer letter equals `correct_answer`, and round
`correct / total * 100`. -/
def calculateScore (questions : List Question) (ans : List (Nat × String)) : Score :=
  let correctCount :=
    (questions.filter fun q => lookupAnswer ans q.number == some q.correct_answer).length
  { correct := correctCount
    total := questions.length
    percentage := round ((correctCount : ℚ) / (questions.length : ℚ) * 100) }

/-- JavaScript truthiness of the optional `customTime` number. -/
def jsTruthyNum : Option Nat → Bool
  | none => false
  | some c => c != 0

/-- Per-question time budget chosen by `startQuizWithDifficulty`
(FlashcardView lines 389-398): `timePerQuestion` starts at 10 and the
`if / else if` chain only overrides it for medium, a valid easy custom time,
or practice. -/
def startQuizTime (difficulty : QuizDifficulty) (customTime : Option Nat) : Nat :=
  if difficulty == .hard then 10
  else if difficulty == .medium then 20
  else if difficulty == .easy && jsTruthyNum customTime && customTime.getD 0 >= 30 then
    customTime.getD 0
  else if difficulty == .practice then 0
  else 10

/-- Translation of `startQuizWithDifficulty` (FlashcardView lines 383-402):
record the shuffled question order and difficulty, set both timer fields to
the chosen budget, and mark the quiz started. -/
def startQuizWithDifficulty (difficulty : QuizDifficulty) (customTime : Option Nat)
    (shuffled : List Question) (s : QuizState) : QuizState :=
  let t := startQuizTime difficulty customTime
  { s with
    shuffledQuestions := shuffled
    quizDifficulty := some difficulty
    selectedTimerPerQuestion := t
    quizTimer := t
    quizStarted := true }

/-- Translation of `submitQuiz` (FlashcardView lines 377-381): delete the
persisted session slot and set `quizFinished`. -/
def submitQuiz (w : QuizWorld) : QuizWorld :=
  { st := { w.st with quizFinished := true }, slot := none }

/-- Question list the component renders: the shuffled order when present,
else the parsed flashcard questions `fq` (FlashcardView line 441). -/
def activeQuestions (fq : List Question) (s : QuizState) : List Question :=
  if s.shuffledQuestions.length > 0 then s.shuffledQuestions else fq

/-- Translation of `moveToNextQuestion` (FlashcardView lines 362-375):
advance the index and reset the timer for timed modes, or submit after the
last question. -/
def moveToNextQuestion (fq : List Question) (w : QuizWorld) : QuizWorld :=
  let questions := activeQuestions fq w.st
  if w.st.currentQuestionIndex < questions.length - 1 then
    { st :=
        { w.st with
          currentQuestionIndex := w.st.currentQuestionIndex + 1
          showAnswers := false
          quizTimer :=
            if w.st.quizDifficulty != some .practice then w.st.selectedTimerPerQuestion
            else w.st.quizTimer }
      slot := w.slot }
  else submitQuiz w

/-- Guard of the quiz timer effect (FlashcardView line 229): the one-second
countdown only runs for a started, unfinished, online, non-practice quiz. -/
def quizTimerActive (s : QuizState) : Bool :=
  s.studyMode == .quiz && s.quizStarted && !s.quizFinished && !s.quizAborted &&
    !s.loading && !s.connectionLost && s.quizDifficulty != some .practice

/-- Translation of one tick of the quiz timer interval (FlashcardView lines
231-239): at `prev <= 1` call `moveToNextQuestion` and reset the timer to the
per-question budget, otherwise decrement. -/
def quizTimerTick (fq : List Question) (w : QuizWorld) : QuizWorld :=
  if quizTimerActive w.st then
    if w.st.quizTimer <= 1 then
      let w1 := moveToNextQuestion fq w
      { st := { w1.st with quizTimer := w.st.selectedTimerPerQuestion }, slot := w1.slot }
    else { st := { w.st with quizTimer := w.st.quizTimer - 1 }, slot := w.slot }
  else w

/-- Discrete browser events consumed by the quiz effects. -/
inductive UiEvent where
  | tabHidden
  | navClick
  | chatClick
deriving DecidableEq, Repr

/-- Guard shared by the navigation-interception effect and the offline
cheating-detection effect (FlashcardView lines 190 and 246). -/
def quizInProgress (s : QuizState) : Bool :=
  s.studyMode == .quiz && s.quizStarted && !s.quizFinished && !s.quizAborted

/-- Translation of the navigation interception effect (FlashcardView lines
244-291): while a quiz is in progress, a hidden tab sets `quizFinished`, and
a route-changing navigation click or a chat-widget click sets `quizAborted`.
The persisted slot is untouched. -/
def navInterceptStep (w : QuizWorld) (e : UiEvent) : QuizWorld :=
  if quizInProgress w.st then
    match e with
    | .tabHidden => { st := { w.st with quizFinished := true }, slot := w.slot }
    | .navClick => { st := { w.st with quizAborted := true }, slot := w.slot }
    | .chatClick => { st := { w.st with quizAborted := true }, slot := w.slot }
  else w

/-- Translation of the offline cheating-detection effect (FlashcardView lines
188-225): while a quiz is in progress and the connection is lost, a hidden
tab or a route-changing navigation click sets `cheatingDetected`. -/
def offlineCheatStep (w : QuizWorld) (e : UiEvent) : QuizWorld :=
  if quizInProgress w.st && w.st.connectionLost then
    match e with
    | .tabHidden => { st := { w.st with cheatingDetected := true }, slot := w.slot }
    | .navClick => { st := { w.st with cheatingDetected := true }, slot := w.slot }
    | .chatClick => w
  else w

/-- Translation of the connection loss/restore effect (FlashcardView lines
140-160), reacting to the `isOnline` signal at wall-clock time `now` (ms).
Losing the connection records `offlineSince`; restoring it clears
`connectionLost` and, for a cheating-flagged session, sets `quizFinished`
(the 500ms settling delay of the `setTimeout` is abstracted away). The
persisted slot is untouched. -/
def connectionEffectStep (w : QuizWorld) (isOnline : Bool) (now : Nat) : QuizWorld :=
  if quizInProgress w.st then
    if !isOnline && !w.st.connectionLost then
      { st := { w.st with connectionLost := true, offlineSince := some now }, slot := w.slot }
    else if isOnline && w.st.connectionLost then
      let s1 := { w.st with connectionLost := false }
      if s1.cheatingDetected then
        { st := { s1 with quizFinished := true }, slot := w.slot }
      else { st := s1, slot := w.slot }
    else w
  else w

/-- Translation of one tick of the offline timeout monitor interval
(FlashcardView lines 162-186) at wall-clock time `now` (ms): compute the
elapsed offline seconds, raise the one-time warning at 240s, and force
`quizFinished` at 300s. The persisted slot is untouched. -/
def offlineMonitorTick (w : QuizWorld) (now : Nat) : QuizWorld :=
  if !w.st.connectionLost || w.st.offlineSince.isNone ||
      w.st.quizFinished || w.st.quizAborted then w
  else
    let offlineSeconds := (now - w.st.offlineSince.getD 0) / 1000
    let s1 := { w.st with offlineElapsedSeconds := offlineSeconds }
    let s2 :=
      if offlineSeconds >= 4 * 60 && !s1.offlineTimeoutWarning then
        { s1 with offlineTimeoutWarning := true }
      else s1
    if offlineSeconds >= 5 * 60 then
      { st := { s2 with quizFinished := true }, slot := w.slot }
    else { st := s2, slot := w.slot }

/-- Run of the offline monitor: the interval fires once per second, so the
tick number `k` happens at `offlineSince + 1000 * k` milliseconds. -/
def runOfflineMonitor (w : QuizWorld) : Nat → QuizWorld
  | 0 => w
  | n + 1 =>
    offlineMonitorTick (runOfflineMonitor w n) (w.st.offlineSince.getD 0 + 1000 * (n + 1))

/-- Entries of the dependency array of the auto-save effect (FlashcardView
line 138), in source order. -/
structure AutoSaveDeps where
  flashcardId : String
  currentQuestionIndex : Nat
  selectedAnswers : List (Nat × String)
  quizTimer : Nat
  selectedTimerPerQuestion : Nat
  studyMode : StudyMode
  quizStarted : Bool
  quizFinished : Bool
  quizAborted : Bool
  cheatingDetected : Bool
  offlineSince : Option Nat
deriving DecidableEq, Repr

/-- Dependency array of the auto-save effect (FlashcardView line 138). React
compares entries with `Object.is`; for these values that is structural
equality. -/
def autoSaveDeps (fid : String) (s : QuizState) : AutoSaveDeps :=
  { flashcardId := fid
    currentQuestionIndex := s.currentQuestionIndex
    selectedAnswers := s.selectedAnswers
    quizTimer := s.quizTimer
    selectedTimerPerQuestion := s.selectedTimerPerQuestion
    studyMode := s.studyMode
    quizStarted := s.quizStarted
    quizFinished := s.quizFinished
    quizAborted := s.quizAborted
    cheatingDetected := s.cheatingDetected
    offlineSince := s.offlineSince }

/-- Early-return guard of the auto-save effect (FlashcardView line 122). -/
def autoSaveGate (s : QuizState) : Bool :=
  s.studyMode == .quiz && s.quizStarted && !s.quizFinished && !s.quizAborted

/-- Snapshot written by the auto-save effect (FlashcardView lines 124-137). -/
def sessionData (fid : String) (now : Nat) (s : QuizState) : SessionData :=
  { flashcardId := fid
    currentQuestionIndex := s.currentQuestionIndex
    selectedAnswers := s.selectedAnswers
    studyMode := s.studyMode
    quizTimer := s.quizTimer
    selectedTimerPerQuestion := s.selectedTimerPerQuestion
    quizStarted := true
    timestamp := now
    cheatingDetected := s.cheatingDetected
    offlineSince := s.offlineSince }

/-- Firing of the auto-save effect across a state mutation from `prev` to
`cur`: React re-runs the effect when the dependency array changed, and the
effect body writes the snapshot unless the guard returns early. -/
def autoSaveEffect (fid : String) (now : Nat) (slot : Option SessionData)
    (prev cur : QuizState) : Option SessionData :=
  if decide (autoSaveDeps fid prev ≠ autoSaveDeps fid cur) && autoSaveGate cur then
    some (sessionData fid now cur)
  else slot

/-- Roster entry consumed by `PresenceRoster` (`UserInfo` from the api
service): username, online flag, optional last-seen timestamp (ms). -/
structure UserInfo where
  username : String
  online : Bool
  lastSeen : Option Nat
deriving DecidableEq, Repr

/-- Timestamp used by the roster comparator: `a.lastSeen ? getTime() : 0`
(PresenceRoster lines 34-35). -/
def lastSeenTime (u : UserInfo) : Nat :=
  u.lastSeen.getD 0

/-- Non-strict relation of the `sortRoster` comparator (PresenceRoster lines
30-37): `a` may precede `b` exactly when the comparator value is at most 0,
that is when `a` is online and `b` is not, or both share the online flag and
`b.lastSeen` is not newer than `a.lastSeen`. -/
def rosterLe (a b : UserInfo) : Prop :=
  (a.online = true ∧ b.online = false) ∨
    (a.online = b.online ∧ lastSeenTime b ≤ lastSeenTime a)

instance : DecidableRel rosterLe := fun a b => by
  unfold rosterLe
  infer_instance

instance : IsTotal UserInfo rosterLe where
  total a b := by
    unfold rosterLe
    cases ha : a.online <;> cases hb : b.online <;> simp <;> omega

instance : IsTrans UserInfo rosterLe where
  trans a b c hab hbc := by
    unfold rosterLe at hab hbc ⊢
    rcases hab with ⟨h1, h2⟩ | ⟨h1, h2⟩ <;> rcases hbc with ⟨h3, h4⟩ | ⟨h3, h4⟩
    · exact absurd h3 (by simp [h2])
    · exact Or.inl ⟨h1, h3 ▸ h2⟩
    · exact Or.inl ⟨h1 ▸ h3, h4⟩
    · exact Or.inr ⟨h1.trans h3, h4.trans h2⟩

/-- Translation of `sortRoster` (PresenceRoster lines 29-38): a stable sort
of the incoming snapshot by the comparator relation. -/
def sortRoster (users : List UserInfo) : List UserInfo :=
  List.insertionSort rosterLe users

/-- Modelled from the spec: the claimed output order of `mergeRoster` with
the tie-break, online-first, then lastSeenAt descending, ties broken by
username ascending (lexicographic on the character list). -/
def rosterSpecLe (a b : UserInfo) : Prop :=
  (a.online = true ∧ b.online = false) ∨
    (a.online = b.online ∧
      (lastSeenTime b < lastSeenTime a ∨
        (lastSeenTime a = lastSeenTime b ∧ a.username.data ≤ b.username.data)))

instance : DecidableRel rosterSpecLe := fun a b => by
  unfold rosterSpecLe
  infer_instance

/-- Chat message consumed by `ChatWidget` (`Message` from the chat api):
`createdAt` is an epoch-millisecond timestamp. -/
structure Message where
  id : String
  conversationId : String
  senderUsername : String
  body : String
  createdAt : Nat
  readBy : List String
deriving DecidableEq, Repr

/-- Deduplication by message id with JavaScript `Map` semantics (ChatWidget
lines 193-195 and 322-324): each id keeps the position of its first
occurrence and the value of its last occurrence. -/
def dedupeById : List Message → List Message
  | [] => []
  | m :: rest =>
    ((rest.filter fun x => x.id == m.id).getLastD m) ::
      dedupeById (rest.filter fun x => x.id != m.id)
termination_by l => l.length
decreasing_by
  simp only [List.length_cons]
  exact Nat.lt_succ_of_le (List.length_filter_le _ _)

/-- Non-strict relation of the message comparator (ChatWidget lines 195-197
and 324-326): ascending by `createdAt`. -/
def msgLe (a b : Message) : Prop :=
  a.createdAt ≤ b.createdAt

instance : DecidableRel msgLe := fun a b => by
  unfold msgLe
  infer_instance

instance : IsTotal Message msgLe where
  total a b := Nat.le_total a.createdAt b.createdAt

instance : IsTrans Message msgLe where
  trans _ _ _ hab hbc := Nat.le_trans hab hbc

/-- The merge applied to every polled message snapshot, shared by
`loadMessages` (ChatWidget lines 193-197) and `messagesForRender` (lines
321-327): dedupe by id, then stable-sort ascending by `createdAt`. -/
def mergeMessages (incoming : List Message) : List Message :=
  List.insertionSort msgLe (dedupeById incoming)

/-- Presence event feed entry (`PresenceEvent` from the api service). -/
structure PresenceEvent where
  id : String
  username : String
  role : String
  type : String
  timestamp : Nat
deriving DecidableEq, Repr

/-- The per-user read ledger (`Record<string, boolean>` persisted under
`presence_read:<username>`), modelled as an association list where the most
recent binding for a key is found first. -/
abbrev ReadLedger := List (String × Bool)

/-- JavaScript truthiness of `readMap[id]`: a missing key and an explicit
`false` both read as unread. -/
def ledgerGet (ledger : ReadLedger) (k : String) : Bool :=
  match ledger.find? fun p => p.fst == k with
  | some p => p.snd
  | none => false

/-- Translation of the unread presence count (HeaderBanner lines 135):
`events.reduce((acc, e) => (readMap[e.id] ? acc : acc + 1), 0)`. -/
def unreadPresenceCount (events : List PresenceEvent) (ledger : ReadLedger) : Nat :=
  events.foldl (fun acc e => if ledgerGet ledger e.id then acc else acc + 1) 0

/-- Translation of `toggleRead` (NotificationsPage lines 89-99): the object
spread `{...prev, [id]: next}` overrides the binding for `id`. -/
def toggleRead (ledger : ReadLedger) (id : String) (next : Bool) : ReadLedger :=
  (id, next) :: ledger.filter fun p => p.fst != id

/-- Translation of `markAllRead` (NotificationsPage lines 101-110): a fresh
ledger mapping every current event id to `true`. -/
def markAllRead (events : List PresenceEvent) : ReadLedger :=
  events.map fun e => (e.id, true)

/-- Conversation summary consumed by `ChatWidget` (participants are
username/role pairs). -/
structure ConversationSummary where
  id : String
  participants : List (String × String)
  lastMessagePreview : Option String
  unreadCount : Nat
deriving DecidableEq, Repr

/-- Translation of the message-input `onFocus` handler (ChatWidget lines
699-706): with a session and a selected conversation the handler awaits
`chatApi.markRead` and only then zeroes the local `unreadCount`; a rejected
call is swallowed by the `catch` and the local state is never touched.
`markReadOk` records whether the awaited call succeeded. -/
def onFocusMarkRead (hasSession : Bool) (selectedId : Option String)
    (markReadOk : Bool) (convs : List ConversationSummary) : List ConversationSummary :=
  match selectedId with
  | none => convs
  | some cid =>
    if hasSession then
      if markReadOk then
        convs.map fun c => if c.id == cid then { c with unreadCount := 0 } else c
      else convs
    else convs

/-! Claim theorems. -/

/-- C10: starting a quiz with difficulty easy and a custom per-question time
below 30 seconds (or no custom time, or zero) silently falls back to the
10-second hard-mode default instead of rejecting or clamping up to 30; only
a custom time of at least 30 seconds is used as given. -/
theorem c10_easy_custom_time_fallback (c : Nat) (hc : c < 30) :
    startQuizTime .easy (some c) = 10 ∧
    startQuizTime .easy none = 10 ∧
    startQuizTime .easy (some c) = startQuizTime .hard none ∧
    startQuizTime .easy (some c) ≠ 30 ∧
    (∀ d, 30 ≤ d → startQuizTime .easy (some d) = d) ∧
    (∀ sh s, (startQuizWithDifficulty .easy (some c) sh s).selectedTimerPerQuestion = 10 ∧
      (startQuizWithDifficulty .easy (some c) sh s).quizTimer = 10) := by
  have h10 : startQuizTime .easy (some c) = 10 := by
    interval_cases c <;> decide
  have hbig : ∀ d, 30 ≤ d → startQuizTime .easy (some d) = d := by
    intro d hd
    have h1 : jsTruthyNum (some d) = true := by
      simp only [jsTruthyNum, ne_eq, bne_iff_ne]
      omega
    simp [startQuizTime, h1, hd]
  exact ⟨h10, by decide, by rw [h10]; decide, by rw [h10]; decide, hbig,
    fun sh s => by simp [startQuizWithDifficulty, h10]⟩

/-- Witness for `c10_easy_custom_time_fallback` at the concrete custom time
25 seconds. -/
theorem c10_easy_custom_time_fallback_witness :
    25 < 30 ∧ startQuizTime .easy (some 25) = 10 :=
  ⟨by decide, (c10_easy_custom_time_fallback 25 (by decide)).1⟩

/-- Helper for C5: the JavaScript rounding of `correct / total * 100` agrees
with integer arithmetic when `total` is positive. -/
theorem round_percentage_eq (c t : Nat) (ht : 0 < t) :
    round ((c : ℚ) / (t : ℚ) * 100) = ((200 * c + t) / (2 * t) : ℕ) := by
  have htq : (t : ℚ) ≠ 0 := by positivity
  rw [round_eq]
  have hx : (c : ℚ) / (t : ℚ) * 100 + 1 / 2 =
      ((200 * c + t : ℕ) : ℚ) / ((2 * t : ℕ) : ℚ) := by
    push_cast
    field_simp
    ring
  rw [hx]
  have h1 : ((200 * c + t : ℕ) : ℚ) = (((200 * c + t : ℕ) : ℤ) : ℚ) := by push_cast; ring
  rw [h1, Rat.floor_intCast_div_natCast, ← Int.natCast_div]

/-- C5: the quiz score is computed over all rendered (shuffled) questions:
a question counts as correct exactly when the selected answer equals its
correct answer, an unanswered question never counts as correct, the final
percentage is the rounding of `correct / total * 100`, with integer
characterisation `(200 * correct + total) / (2 * total)`, and 1 correct out
of 5 questions yields 20 percent. -/
theorem c5_calculateScore_spec (questions : List Question) (ans : List (Nat × String)) :
    (calculateScore questions ans).total = questions.length ∧
    (calculateScore questions ans).correct =
      questions.countP (fun q => lookupAnswer ans q.number == some q.correct_answer) ∧
    (calculateScore questions ans).correct ≤
      (questions.filter fun q => (lookupAnswer ans q.number).isSome).length ∧
    (0 < questions.length →
      (calculateScore questions ans).percentage =
        ((200 * (calculateScore questions ans).correct + questions.length) /
          (2 * questions.length) : ℕ)) ∧
    (questions.length = 5 → (calculateScore questions ans).correct = 1 →
      (calculateScore questions ans).percentage = 20) := by
  have hcorrect : (calculateScore questions ans).correct =
      questions.countP (fun q => lookupAnswer ans q.number == some q.correct_answer) := by
    simp [calculateScore, List.countP_eq_length_filter]
  have hpct : 0 < questions.length →
      (calculateScore questions ans).percentage =
        ((200 * (calculateScore questions ans).correct + questions.length) /
          (2 * questions.length) : ℕ) := by
    intro ht
    simp only [calculateScore]
    rw [round_percentage_eq _ _ ht]
  refine ⟨rfl, hcorrect, ?_, hpct, ?_⟩
  · rw [hcorrect, ← List.countP_eq_length_filter]
    apply List.countP_mono_left
    intro q _ hq
    simp only [beq_iff_eq] at hq
    simp [hq]
  · intro h5 h1
    have hp := hpct (by omega)
    rw [hp, h1, h5]
    decide

/-- Witness for `c5_calculateScore_spec`: a concrete five-question session
exercising the positive-total hypothesis of the rounding characterisation
(here every replicated question shares number 1, so all five match the one
recorded answer). -/
theorem c5_calculateScore_spec_witness :
    0 < (List.replicate 5 (Question.mk 1 "q" ["A) x", "B) y"] "A")).length ∧
    (calculateScore (List.replicate 5 (Question.mk 1 "q" ["A) x", "B) y"] "A"))
        [(1, "A")]).percentage =
      ((200 * (calculateScore (List.replicate 5 (Question.mk 1 "q" ["A) x", "B) y"] "A"))
          [(1, "A")]).correct +
        (List.replicate 5 (Question.mk 1 "q" ["A) x", "B) y"] "A")).length) /
        (2 * (List.replicate 5 (Question.mk 1 "q" ["A) x", "B) y"] "A")).length) : ℕ) :=
  ⟨by decide,
    (c5_calculateScore_spec (List.replicate 5 (Question.mk 1 "q" ["A) x", "B) y"] "A"))
        [(1, "A")]).2.2.2.1 (by decide)⟩

/-- Concrete in-progress, online quiz state used by concrete witnesses and
counterexamples. -/
def sEx : QuizState :=
  { currentQuestionIndex := 1
    selectedAnswers := [(1, "A")]
    showAnswers := false
    studyMode := .quiz
    quizTimer := 7
    quizFinished := false
    quizAborted := false
    quizStarted := true
    selectedTimerPerQuestion := 10
    quizDifficulty := some .hard
    connectionLost := false
    offlineSince := none
    cheatingDetected := false
    offlineTimeoutWarning := false
    offlineElapsedSeconds := 0
    shuffledQuestions := []
    loading := false }

/-- Concrete world around `sEx` whose persisted slot is populated. -/
def wEx : QuizWorld :=
  { st := sEx, slot := some (sessionData "f1" 0 sEx) }

/-- Concrete offline in-progress world: the connection was lost at epoch
5000 ms and a snapshot is persisted. -/
def wOffEx : QuizWorld :=
  { st := { sEx with connectionLost := true, offlineSince := some 5000 }
    slot := some (sessionData "f1" 0 sEx) }

/-- C1 counterexample: in the concrete in-progress online state, a
tab-hidden event does not set `quizAborted`; it sets `quizFinished`
instead. -/
theorem c1_tab_hidden_counterexample :
    quizInProgress wEx.st = true ∧ wEx.st.connectionLost = false ∧
    (navInterceptStep wEx .tabHidden).st.quizAborted = false ∧
    (navInterceptStep wEx .tabHidden).st.quizFinished = true := by decide

/-- C1 (amended): while a quiz is in progress, a tab-hidden event
immediately transitions the session to finished (leaving `quizAborted`
untouched), while an in-app navigation attempt or a chat-widget click
immediately transitions it to aborted. -/
theorem c1_nav_interception (w : QuizWorld) (h : quizInProgress w.st = true) :
    (navInterceptStep w .tabHidden).st.quizFinished = true ∧
    (navInterceptStep w .tabHidden).st.quizAborted = false ∧
    (navInterceptStep w .navClick).st.quizAborted = true ∧
    (navInterceptStep w .chatClick).st.quizAborted = true := by
  have hab : w.st.quizAborted = false := by
    simp only [quizInProgress, Bool.and_eq_true, Bool.not_eq_true'] at h
    exact h.2
  simp [navInterceptStep, h, hab]

/-- Witness for `c1_nav_interception` at the concrete world `wEx`. -/
theorem c1_nav_interception_witness :
    quizInProgress wEx.st = true ∧
    (navInterceptStep wEx .navClick).st.quizAborted = true :=
  ⟨by decide, (c1_nav_interception wEx (by decide)).2.2.1⟩

/-- Helper for C2: full characterisation of the offline monitor run from an
offline, unflagged, unfinished state. -/
theorem runOfflineMonitor_char (w : QuizWorld) (T : Nat)
    (hcl : w.st.connectionLost = true) (hos : w.st.offlineSince = some T)
    (hab : w.st.quizAborted = false) (hwarn : w.st.offlineTimeoutWarning = false)
    (hfin : w.st.quizFinished = false) :
    ∀ n,
      (runOfflineMonitor w n).st.connectionLost = true ∧
      (runOfflineMonitor w n).st.offlineSince = some T ∧
      (runOfflineMonitor w n).st.quizAborted = false ∧
      (runOfflineMonitor w n).st.offlineTimeoutWarning = decide (240 ≤ n) ∧
      (runOfflineMonitor w n).st.quizFinished = decide (300 ≤ n) ∧
      (runOfflineMonitor w n).st.currentQuestionIndex = w.st.currentQuestionIndex ∧
      (runOfflineMonitor w n).slot = w.slot ∧
      (runOfflineMonitor w n).st.studyMode = w.st.studyMode ∧
      (runOfflineMonitor w n).st.quizStarted = w.st.quizStarted ∧
      (runOfflineMonitor w n).st.cheatingDetected = w.st.cheatingDetected := by
  intro n
  induction n with
  | zero =>
    refine ⟨hcl, hos, hab, ?_, ?_, rfl, rfl, rfl, rfl, rfl⟩
    · simp [runOfflineMonitor, hwarn]
    · simp [runOfflineMonitor, hfin]
  | succ n ih =>
    obtain ⟨ih1, ih2, ih3, ih4, ih5, ih6, ih7, ih8, ih9, ih10⟩ := ih
    simp only [runOfflineMonitor]
    by_cases h300 : 300 ≤ n
    · have hguard : (runOfflineMonitor w n).st.quizFinished = true := by
        rw [ih5]
        simpa
      have heq : offlineMonitorTick (runOfflineMonitor w n)
          (w.st.offlineSince.getD 0 + 1000 * (n + 1)) = runOfflineMonitor w n := by
        simp [offlineMonitorTick, hguard]
      rw [heq]
      refine ⟨ih1, ih2, ih3, ?_, ?_, ih6, ih7, ih8, ih9, ih10⟩
      · rw [ih4]
        simp only [decide_eq_decide]
        omega
      · rw [ih5]
        simp only [decide_eq_decide]
        omega
    · have hguardf : (runOfflineMonitor w n).st.quizFinished = false := by
        rw [ih5]
        simp only [decide_eq_false_iff_not]
        omega
      have hsec : (w.st.offlineSince.getD 0 + 1000 * (n + 1) - T) / 1000 = n + 1 := by
        rw [hos]
        simp only [Option.getD_some]
        omega
      simp only [offlineMonitorTick, ih1, hguardf, ih3, ih2, Option.isNone_some,
        Bool.not_true, Bool.false_or, Bool.or_false, Bool.or_self, Bool.false_eq_true,
        if_false, Option.getD_some, hsec, ih4, Bool.not_eq_true]
      split_ifs with hw hf hf
      all_goals refine ⟨?_, ?_, ?_, ?_, ?_, ?_, ?_, ?_, ?_, ?_⟩
      all_goals try exact ih6
      all_goals try exact ih7
      all_goals try exact ih8
      all_goals try exact ih9
      all_goals try exact ih10
      all_goals try rfl
      all_goals simp only [Bool.and_eq_true, decide_eq_true_eq, Bool.not_eq_true,
        Bool.not_eq_true', decide_eq_false_iff_not, ge_iff_le] at hw
      all_goals try rw [eq_comm, decide_eq_true_eq]
      all_goals try rw [eq_comm, decide_eq_false_iff_not]
      all_goals try rw [decide_eq_decide]
      all_goals try simp only [Bool.and_eq_true, decide_eq_true_eq, Bool.not_eq_true,
        Bool.not_eq_true', decide_eq_false_iff_not, ge_iff_le] at hf
      all_goals omega

/-- Helper for C2: from an offline state whose warning flag is already
raised, the monitor never raises it again (the set at FlashcardView line
175 is guarded by the flag and nothing resets it), while the 300-second
force-finish still applies. -/
theorem runOfflineMonitor_char_true (w : QuizWorld) (T : Nat)
    (hcl : w.st.connectionLost = true) (hos : w.st.offlineSince = some T)
    (hab : w.st.quizAborted = false) (hwarn : w.st.offlineTimeoutWarning = true)
    (hfin : w.st.quizFinished = false) :
    ∀ n,
      (runOfflineMonitor w n).st.connectionLost = true ∧
      (runOfflineMonitor w n).st.offlineSince = some T ∧
      (runOfflineMonitor w n).st.quizAborted = false ∧
      (runOfflineMonitor w n).st.offlineTimeoutWarning = true ∧
      (runOfflineMonitor w n).st.quizFinished = decide (300 ≤ n) ∧
      (runOfflineMonitor w n).st.currentQuestionIndex = w.st.currentQuestionIndex ∧
      (runOfflineMonitor w n).slot = w.slot ∧
      (runOfflineMonitor w n).st.studyMode = w.st.studyMode ∧
      (runOfflineMonitor w n).st.quizStarted = w.st.quizStarted ∧
      (runOfflineMonitor w n).st.cheatingDetected = w.st.cheatingDetected := by
  intro n
  induction n with
  | zero =>
    refine ⟨hcl, hos, hab, hwarn, ?_, rfl, rfl, rfl, rfl, rfl⟩
    simp [runOfflineMonitor, hfin]
  | succ n ih =>
    obtain ⟨ih1, ih2, ih3, ih4, ih5, ih6, ih7, ih8, ih9, ih10⟩ := ih
    simp only [runOfflineMonitor]
    by_cases h300 : 300 ≤ n
    · have hguard : (runOfflineMonitor w n).st.quizFinished = true := by
        rw [ih5]
        simpa
      have heq : offlineMonitorTick (runOfflineMonitor w n)
          (w.st.offlineSince.getD 0 + 1000 * (n + 1)) = runOfflineMonitor w n := by
        simp [offlineMonitorTick, hguard]
      rw [heq]
      refine ⟨ih1, ih2, ih3, ih4, ?_, ih6, ih7, ih8, ih9, ih10⟩
      rw [ih5]
      simp only [decide_eq_decide]
      omega
    · have hguardf : (runOfflineMonitor w n).st.quizFinished = false := by
        rw [ih5]
        simp only [decide_eq_false_iff_not]
        omega
      have hsec : (w.st.offlineSince.getD 0 + 1000 * (n + 1) - T) / 1000 = n + 1 := by
        rw [hos]
        simp only [Option.getD_some]
        omega
      simp only [offlineMonitorTick, ih1, hguardf, ih3, ih2, Option.isNone_some,
        Bool.not_true, Bool.false_or, Bool.or_false, Bool.or_self, Bool.false_eq_true,
        if_false, Option.getD_some, hsec, ih4, Bool.and_false]
      split_ifs with hf
      all_goals refine ⟨?_, ?_, ?_, ?_, ?_, ?_, ?_, ?_, ?_, ?_⟩
      all_goals try exact ih6
      all_goals try exact ih7
      all_goals try exact ih8
      all_goals try exact ih9
      all_goals try exact ih10
      all_goals try rfl
      all_goals try rw [eq_comm, decide_eq_true_eq]
      all_goals try rw [eq_comm, decide_eq_false_iff_not]
      all_goals omega

/-- Helper for C2: the connection effect on losing the connection while in
progress and online records `offlineSince` and raises `connectionLost`
(FlashcardView lines 144-147). -/
theorem connectionEffectStep_goOffline (w : QuizWorld) (now : Nat)
    (hip : quizInProgress w.st = true) (hcl : w.st.connectionLost = false) :
    connectionEffectStep w false now =
      { st := { w.st with connectionLost := true, offlineSince := some now }
        slot := w.slot } := by
  simp [connectionEffectStep, hip, hcl]

/-- Helper for C2: the connection effect on a clean reconnect (no cheating
flag) only clears `connectionLost`; in particular `offlineTimeoutWarning`
and `offlineSince` are left as they are (FlashcardView lines 148-159). -/
theorem connectionEffectStep_reconnectClean (w : QuizWorld) (now : Nat)
    (hip : quizInProgress w.st = true) (hcl : w.st.connectionLost = true)
    (hch : w.st.cheatingDetected = false) :
    connectionEffectStep w true now =
      { st := { w.st with connectionLost := false }, slot := w.slot } := by
  simp [connectionEffectStep, hip, hcl, hch]

/-- First offline transition of the two-episode scenario: `wEx` after the
connectivity signal drops at 5000 ms. -/
def wFirstOffline : QuizWorld :=
  { st := { sEx with connectionLost := true, offlineSince := some 5000 }
    slot := some (sessionData "f1" 0 sEx) }

/-- Concrete second offline episode: the session in `wEx` goes offline at
5000 ms, stays offline 250 seconds (raising the warning), reconnects
cleanly at 260000 ms, and goes offline again at 300000 ms; nothing resets
`offlineTimeoutWarning` in between. -/
def wSecondEpisode : QuizWorld :=
  connectionEffectStep
    (connectionEffectStep (runOfflineMonitor (connectionEffectStep wEx false 5000) 250)
      true 260000)
    false 300000

/-- C2 counterexample: one second into the second offline episode (offline
since 300000 ms, so the offline duration is 1 second, far below 240) the
session is in progress and offline with the warning flag already true,
because the set at FlashcardView line 175 is never reset between episodes;
so the flag does not become true once per offline episode at 240 seconds
offline and not before. -/
theorem c2_second_episode_counterexample :
    quizInProgress (runOfflineMonitor wSecondEpisode 1).st = true ∧
    (runOfflineMonitor wSecondEpisode 1).st.connectionLost = true ∧
    (runOfflineMonitor wSecondEpisode 1).st.offlineSince = some 300000 ∧
    (runOfflineMonitor wSecondEpisode 1).st.quizFinished = false ∧
    (runOfflineMonitor wSecondEpisode 1).st.offlineTimeoutWarning = true := by
  have h0 : connectionEffectStep wEx false 5000 = wFirstOffline := by decide
  obtain ⟨g1, g2, g3, g4, g5, g6, g7, g8, g9, g10⟩ :=
    runOfflineMonitor_char wFirstOffline 5000 (by decide) (by decide) (by decide)
      (by decide) (by decide) 250
  generalize hA : runOfflineMonitor wFirstOffline 250 = W at g1 g2 g3 g4 g5 g6 g7 g8 g9 g10
  have hip2 : quizInProgress W.st = true := by
    simp only [quizInProgress, g8, g9, g5, g3]
    decide
  have hrecon : connectionEffectStep W true 260000 =
      { st := { W.st with connectionLost := false }, slot := W.slot } :=
    connectionEffectStep_reconnectClean W 260000 hip2 g1 (g10.trans (by decide))
  have hip3 : quizInProgress
      ({ st := { W.st with connectionLost := false }, slot := W.slot } : QuizWorld).st =
        true := by
    simpa [quizInProgress] using hip2
  have hoff2 : connectionEffectStep
      ({ st := { W.st with connectionLost := false }, slot := W.slot } : QuizWorld)
        false 300000 =
      { st := { { W.st with connectionLost := false } with
          connectionLost := true, offlineSince := some 300000 }
        slot := W.slot } :=
    connectionEffectStep_goOffline _ 300000 hip3 rfl
  have hsecond : wSecondEpisode =
      { st := { { W.st with connectionLost := false } with
          connectionLost := true, offlineSince := some 300000 }
        slot := W.slot } := by
    rw [wSecondEpisode, h0, hA, hrecon, hoff2]
  obtain ⟨k1, k2, k3, k4, k5, k6, k7, k8, k9, k10⟩ :=
    runOfflineMonitor_char_true
      ({ st := { { W.st with connectionLost := false } with
          connectionLost := true, offlineSince := some 300000 }
         slot := W.slot } : QuizWorld) 300000
      rfl rfl g3 (g4.trans (by decide)) (g5.trans (by decide)) 1
  rw [hsecond]
  refine ⟨?_, k1, k2, k5.trans (by decide), k4⟩
  simp only [quizInProgress, k8, k9, k5, k3]
  simp only [g8, g9]
  decide

/-- C2 (amended): for a session offline since `offlineSince = T`, the
monitor forces finished exactly from 300 seconds offline on regardless of
`currentQuestionIndex`, and the warning flag after `n` seconds offline is
its value at the start of the episode joined with `240 <= n`: an episode
starting with the flag down (the first one) raises it exactly at 240
seconds and not before, while an episode starting after an earlier raise
(the flag is never reset) has it already true throughout. -/
theorem c2_offline_timeout_amended (w : QuizWorld) (T n : Nat)
    (hcl : w.st.connectionLost = true) (hos : w.st.offlineSince = some T)
    (hab : w.st.quizAborted = false) (hfin : w.st.quizFinished = false) :
    ((runOfflineMonitor w n).st.offlineTimeoutWarning =
      (w.st.offlineTimeoutWarning || decide (240 ≤ n))) ∧
    (w.st.offlineTimeoutWarning = false →
      ((runOfflineMonitor w n).st.offlineTimeoutWarning = true ↔ 240 ≤ n)) ∧
    ((runOfflineMonitor w n).st.quizFinished = true ↔ 300 ≤ n) ∧
    (runOfflineMonitor w n).st.currentQuestionIndex = w.st.currentQuestionIndex ∧
    (runOfflineMonitor w n).st.quizAborted = false ∧
    (runOfflineMonitor w n).st.offlineSince = some T := by
  cases hb : w.st.offlineTimeoutWarning with
  | false =>
    obtain ⟨h1, h2, h3, h4, h5, h6, h7, h8, h9, h10⟩ :=
      runOfflineMonitor_char w T hcl hos hab hb hfin n
    refine ⟨by rw [h4]; simp, ?_, ?_, h6, h3, h2⟩
    · intro _
      rw [h4]
      simp
    · rw [h5]
      simp
  | true =>
    obtain ⟨h1, h2, h3, h4, h5, h6, h7, h8, h9, h10⟩ :=
      runOfflineMonitor_char_true w T hcl hos hab hb hfin n
    refine ⟨by rw [h4]; simp, ?_, ?_, h6, h3, h2⟩
    · intro hfalse
      exact absurd hfalse (by simp)
    · rw [h5]
      simp

/-- Witness for `c2_offline_timeout_amended`: the concrete offline world
`wOffEx` (flag down) at 300 one-second ticks. -/
theorem c2_offline_timeout_amended_witness :
    wOffEx.st.connectionLost = true ∧ wOffEx.st.offlineSince = some 5000 ∧
    wOffEx.st.quizAborted = false ∧ wOffEx.st.quizFinished = false ∧
    ((runOfflineMonitor wOffEx 300).st.quizFinished = true ↔ 300 ≤ 300) :=
  ⟨by decide, by decide, by decide, by decide,
    (c2_offline_timeout_amended wOffEx 5000 300 (by decide) (by decide) (by decide)
      (by decide)).2.2.1⟩

/-- C3 counterexample: from the concrete in-progress state `sEx` with timer
7, one quiz-timer tick changes only `quizTimer` (to 6), yet the auto-save
effect fires on that tick alone (the dependency array contains `quizTimer`)
and the snapshot it persists records the remaining time. -/
theorem c3_timer_tick_persists_counterexample :
    (quizTimerTick [] wEx).st = { sEx with quizTimer := 6 } ∧
    autoSaveEffect "f1" 99 none sEx { sEx with quizTimer := 6 } =
      some (sessionData "f1" 99 { sEx with quizTimer := 6 }) ∧
    (sessionData "f1" 99 { sEx with quizTimer := 6 }).quizTimer = 6 := by decide

/-- C3 (amended): the auto-save effect writes the full snapshot on every
dependency change that passes the in-quiz guard, including a change of
`quizTimer` alone, so a timer tick does trigger a persistence write, and
the persisted snapshot does include the remaining time `quizTimer` next to
the index, the answers, the mode and the flags. -/
theorem c3_autosave_on_mutation (fid : String) (now : Nat) (slot : Option SessionData)
    (s s1 : QuizState) (hgate : autoSaveGate s1 = true)
    (hchange : s1.currentQuestionIndex ≠ s.currentQuestionIndex ∨
      s1.selectedAnswers ≠ s.selectedAnswers ∨ s1.quizTimer ≠ s.quizTimer ∨
      s1.cheatingDetected ≠ s.cheatingDetected) :
    autoSaveEffect fid now slot s s1 = some (sessionData fid now s1) ∧
    (sessionData fid now s1).currentQuestionIndex = s1.currentQuestionIndex ∧
    (sessionData fid now s1).selectedAnswers = s1.selectedAnswers ∧
    (sessionData fid now s1).quizTimer = s1.quizTimer ∧
    (sessionData fid now s1).cheatingDetected = s1.cheatingDetected ∧
    (sessionData fid now s1).offlineSince = s1.offlineSince := by
  have hdeps : autoSaveDeps fid s ≠ autoSaveDeps fid s1 := by
    intro h
    have hx := congrArg AutoSaveDeps.currentQuestionIndex h
    have hy := congrArg AutoSaveDeps.selectedAnswers h
    have hz := congrArg AutoSaveDeps.quizTimer h
    have hc := congrArg AutoSaveDeps.cheatingDetected h
    simp only [autoSaveDeps] at hx hy hz hc
    rcases hchange with h0 | h0 | h0 | h0
    · exact h0 hx.symm
    · exact h0 hy.symm
    · exact h0 hz.symm
    · exact h0 hc.symm
  refine ⟨?_, rfl, rfl, rfl, rfl, rfl⟩
  simp [autoSaveEffect, hdeps, hgate]

/-- Witness for `c3_autosave_on_mutation`: the concrete tick from `sEx` to
the same state with timer 6. -/
theorem c3_autosave_on_mutation_witness :
    autoSaveGate { sEx with quizTimer := 6 } = true ∧
    autoSaveEffect "f1" 99 none sEx { sEx with quizTimer := 6 } =
      some (sessionData "f1" 99 { sEx with quizTimer := 6 }) :=
  ⟨by decide,
    (c3_autosave_on_mutation "f1" 99 none sEx { sEx with quizTimer := 6 } (by decide)
      (Or.inr (Or.inr (Or.inl (by decide))))).1⟩

/-- C4 counterexample: in the concrete offline world `wOffEx` (slot
populated), the offline-timeout tick at 305 seconds reaches the finished
state but leaves the persisted slot in place, and the navigation abort in
`wEx` reaches the aborted state with the slot in place as well. -/
theorem c4_terminal_keeps_slot_counterexample :
    (offlineMonitorTick wOffEx 310000).st.quizFinished = true ∧
    (offlineMonitorTick wOffEx 310000).slot ≠ none ∧
    (navInterceptStep wEx .navClick).st.quizAborted = true ∧
    (navInterceptStep wEx .navClick).slot ≠ none := by decide

/-- C4 (amended): only `submitQuiz` (the manual submit action, also called
by advancing past the last question) deletes the persisted per-flashcard
slot; the offline-timeout monitor, the navigation/tab interception, the
offline cheating flagging and the reconnect auto-submit all leave the slot
untouched even when they reach finished or aborted. -/
theorem c4_slot_deleted_only_by_submit (w : QuizWorld) :
    (submitQuiz w).slot = none ∧ (submitQuiz w).st.quizFinished = true ∧
    (∀ now, (offlineMonitorTick w now).slot = w.slot) ∧
    (∀ e, (navInterceptStep w e).slot = w.slot) ∧
    (∀ e, (offlineCheatStep w e).slot = w.slot) ∧
    (∀ b now, (connectionEffectStep w b now).slot = w.slot) := by
  refine ⟨rfl, rfl, ?_, ?_, ?_, ?_⟩
  · intro now
    simp only [offlineMonitorTick]
    split_ifs <;> rfl
  · intro e
    simp only [navInterceptStep]
    split_ifs <;> cases e <;> rfl
  · intro e
    simp only [offlineCheatStep]
    split_ifs <;> cases e <;> rfl
  · intro b now
    simp only [connectionEffectStep]
    split_ifs <;> rfl

/-- Concrete roster entries that tie on the online flag and the last-seen
time; two of them share a username. -/
def uB5 : UserInfo := { username := "b", online := true, lastSeen := some 5 }

/-- Concrete roster entry with the alphabetically smaller username and the
same presence key as `uB5`. -/
def uA5 : UserInfo := { username := "a", online := true, lastSeen := some 5 }

/-- C6 counterexample: on an incoming snapshot whose entries tie on both
sort keys, `sortRoster` keeps the snapshot order, so a tie is not broken by
username ascending, and a duplicated username survives the merge. -/
theorem c6_sortRoster_counterexample :
    sortRoster [uB5, uB5, uA5] = [uB5, uB5, uA5] ∧
    ¬ (sortRoster [uB5, uB5, uA5]).Pairwise rosterSpecLe ∧
    ¬ ((sortRoster [uB5, uB5, uA5]).map UserInfo.username).Nodup := by
  refine ⟨by decide, by decide, by decide⟩

/-- C6 (amended): the merge entirely replaces the previous roster: the
output is a permutation of the incoming snapshot (so usernames are
deduplicated nowhere, and the output has distinct usernames exactly when
the snapshot does), sorted online-first and then by lastSeenAt descending;
entries that tie on both keys keep their snapshot order instead of being
ordered by username. -/
theorem c6_sortRoster_sorted_perm (users : List UserInfo) :
    (sortRoster users).Perm users ∧
    (sortRoster users).Pairwise rosterLe ∧
    ((users.map UserInfo.username).Nodup →
      ((sortRoster users).map UserInfo.username).Nodup) := by
  refine ⟨List.perm_insertionSort rosterLe users, List.sorted_insertionSort rosterLe users, ?_⟩
  intro h
  exact (((List.perm_insertionSort rosterLe users).map UserInfo.username).nodup_iff).2 h

/-- Witness for `c6_sortRoster_sorted_perm` at a concrete two-entry
snapshot with distinct usernames. -/
theorem c6_sortRoster_sorted_perm_witness :
    (([uA5, uB5].map UserInfo.username).Nodup) ∧
    ((sortRoster [uA5, uB5]).map UserInfo.username).Nodup :=
  ⟨by decide, (c6_sortRoster_sorted_perm [uA5, uB5]).2.2 (by decide)⟩

/-- Helper for C7: every output entry of the deduplication is an entry of
the input snapshot. -/
theorem dedupeById_mem {x : Message} : ∀ {l : List Message}, x ∈ dedupeById l → x ∈ l := by
  intro l
  induction l using dedupeById.induct with
  | case1 => simp [dedupeById]
  | case2 m rest ih =>
    intro hx
    rw [dedupeById] at hx
    rcases List.mem_cons.1 hx with h | h
    · cases hlast : (rest.filter fun x => x.id == m.id).getLast? with
      | none =>
        rw [List.getLastD_eq_getLast?, hlast] at h
        simp [h]
      | some y =>
        rw [List.getLastD_eq_getLast?, hlast] at h
        have hy0 : y ∈ (rest.filter fun x => x.id == m.id).getLast? := by
          rw [hlast]
          rfl
        obtain ⟨hne, hyeq⟩ := List.mem_getLast?_eq_getLast hy0
        have hy : y ∈ rest.filter fun x => x.id == m.id := hyeq ▸ List.getLast_mem hne
        have := List.mem_of_mem_filter hy
        simp [h, this]
    · have := ih h
      have := List.mem_of_mem_filter this
      simp [this]

/-- Helper for C7: the entry kept for the head id carries that id (it is the
last occurrence of the id, or the head itself). -/
theorem dedupeById_head_id (m : Message) (rest : List Message) :
    ((rest.filter fun x => x.id == m.id).getLastD m).id = m.id := by
  cases hlast : (rest.filter fun x => x.id == m.id).getLast? with
  | none =>
    rw [List.getLastD_eq_getLast?, hlast]
    rfl
  | some y =>
    rw [List.getLastD_eq_getLast?, hlast]
    have hy0 : y ∈ (rest.filter fun x => x.id == m.id).getLast? := by
      rw [hlast]
      rfl
    obtain ⟨hne, hyeq⟩ := List.mem_getLast?_eq_getLast hy0
    have hy := hyeq ▸ List.getLast_mem hne
    have hp := List.of_mem_filter hy
    simpa using hp

/-- Helper for C7: the deduplicated snapshot has pairwise distinct message
ids. -/
theorem dedupeById_ids_nodup : ∀ l : List Message, ((dedupeById l).map Message.id).Nodup := by
  intro l
  induction l using dedupeById.induct with
  | case1 => simp [dedupeById]
  | case2 m rest ih =>
    rw [dedupeById]
    simp only [List.map_cons, List.nodup_cons]
    refine ⟨?_, ih⟩
    intro hmem
    rcases List.mem_map.1 hmem with ⟨x, hx, hxid⟩
    have hx1 := dedupeById_mem hx
    have hpred := List.of_mem_filter hx1
    rw [dedupeById_head_id] at hxid
    simp only [bne_iff_ne] at hpred
    exact hpred hxid

/-- Helper for C7: deduplication is the identity on a snapshot whose ids are
already distinct. -/
theorem dedupeById_eq_self : ∀ l : List Message, (l.map Message.id).Nodup → dedupeById l = l := by
  intro l
  induction l using dedupeById.induct with
  | case1 =>
    intro _
    rw [dedupeById]
  | case2 m rest ih =>
    intro h
    simp only [List.map_cons, List.nodup_cons] at h
    obtain ⟨hnotin, hrest⟩ := h
    have hfilter_eq : (rest.filter fun x => x.id == m.id) = [] := by
      rw [List.filter_eq_nil_iff]
      intro x hx
      simp only [beq_iff_eq]
      intro heq
      exact hnotin (List.mem_map.2 ⟨x, hx, heq⟩)
    have hfilter_ne : (rest.filter fun x => x.id != m.id) = rest := by
      rw [List.filter_eq_self]
      intro x hx
      simp only [bne_iff_ne, ne_eq, decide_not, Bool.not_eq_true', decide_eq_false_iff_not]
      intro heq
      exact hnotin (List.mem_map.2 ⟨x, hx, heq⟩)
    rw [hfilter_ne] at ih
    rw [dedupeById, hfilter_eq, hfilter_ne]
    rw [ih hrest]
    rfl

/-- C7: the message merge deduplicates by message id, sorts ascending by
`createdAt`, and is idempotent: re-merging its own output (which is what
re-applying the same snapshot does, since a poll replaces the message list
by the merged snapshot and the render path merges again) returns the
identical ordered list, with no duplicate insertion and no reordering
drift; the output is exactly a permutation of the deduplicated snapshot. -/
theorem c7_mergeMessages_idempotent (incoming : List Message) :
    mergeMessages (mergeMessages incoming) = mergeMessages incoming ∧
    ((mergeMessages incoming).map Message.id).Nodup ∧
    (mergeMessages incoming).Pairwise msgLe ∧
    (mergeMessages incoming).Perm (dedupeById incoming) := by
  have hperm := List.perm_insertionSort msgLe (dedupeById incoming)
  have hnodup : ((mergeMessages incoming).map Message.id).Nodup :=
    ((hperm.map Message.id).nodup_iff).2 (dedupeById_ids_nodup incoming)
  have hsorted : List.Sorted msgLe (mergeMessages incoming) :=
    List.sorted_insertionSort msgLe (dedupeById incoming)
  refine ⟨?_, hnodup, hsorted, hperm⟩
  show List.insertionSort msgLe (dedupeById (mergeMessages incoming)) = mergeMessages incoming
  rw [dedupeById_eq_self _ hnodup]
  exact hsorted.insertionSort_eq

/-- Helper for C8: the reduce-based unread count is the number of events
whose ledger entry reads as unread. -/
theorem unreadPresenceCount_eq_countP (events : List PresenceEvent) (ledger : ReadLedger) :
    unreadPresenceCount events ledger = events.countP fun e => !ledgerGet ledger e.id := by
  suffices h : ∀ acc, events.foldl (fun acc e => if ledgerGet ledger e.id then acc else acc + 1)
      acc = acc + events.countP (fun e => !ledgerGet ledger e.id) by
    simpa [unreadPresenceCount] using h 0
  induction events with
  | nil =>
    intro acc
    simp
  | cons e es ih =>
    intro acc
    simp only [List.foldl_cons, List.countP_cons]
    by_cases hg : ledgerGet ledger e.id
    · simp [hg, ih]
    · simp only [Bool.not_eq_true] at hg
      simp [hg, ih]
      omega

/-- Helper for C8: the empty ledger reads every id as unread. -/
theorem ledgerGet_nil (k : String) : ledgerGet [] k = false :=
  rfl

/-- Helper for C8: after `markAllRead`, an id reads as read exactly when it
belongs to the event feed. -/
theorem ledgerGet_markAllRead (events : List PresenceEvent) (k : String) :
    ledgerGet (markAllRead events) k = events.any fun e => e.id == k := by
  induction events with
  | nil => rfl
  | cons e es ih =>
    simp only [markAllRead, List.map_cons, List.any_cons]
    by_cases h : (e.id == k) = true
    · simp [ledgerGet, List.find?_cons, h]
    · simp only [Bool.not_eq_true] at h
      simp only [ledgerGet, List.find?_cons, h, Bool.false_or]
      simpa [markAllRead, ledgerGet] using ih

/-- Helper for C8: a toggle overrides exactly its own key. -/
theorem ledgerGet_toggleRead (L : ReadLedger) (k j : String) (v : Bool) :
    ledgerGet (toggleRead L k v) j = if (k == j) = true then v else ledgerGet L j := by
  by_cases h : (k == j) = true
  · simp [toggleRead, ledgerGet, List.find?_cons, h]
  · simp only [Bool.not_eq_true] at h
    simp only [toggleRead, ledgerGet, List.find?_cons, h, if_false]
    have : List.find? (fun p => p.fst == j) (L.filter fun p => p.fst != k) =
        List.find? (fun p => p.fst == j) L := by
      induction L with
      | nil => rfl
      | cons p ps ihp =>
        by_cases hp : (p.fst != k) = true
        · simp only [List.filter_cons, hp, if_true, List.find?_cons]
          by_cases hj : (p.fst == j) = true
          · simp [hj]
          · simp only [Bool.not_eq_true] at hj
            simp [hj, ihp]
        · simp only [Bool.not_eq_true, bne_eq_false_iff_eq] at hp
          have hpj : (p.fst == j) = false := by
            rw [hp]
            exact h
          simp only [List.filter_cons, List.find?_cons, hpj, if_false]
          have hbne : (p.fst != k) = false := by
            simp [hp]
          simp [hbne, ihp]
    simp only [Bool.false_eq_true, if_false]
    rw [this]

/-- C8: with an empty ledger the unread alert count equals the number of
events; an empty event feed yields 0, not an error; after `markAllRead` the
count is 0; and toggling exactly one event of the feed back to unread makes
the count exactly 1 (event ids are unique per the data model). -/
theorem c8_unread_alert_counts (events : List PresenceEvent) (ledger : ReadLedger)
    (e0 : PresenceEvent) :
    unreadPresenceCount events [] = events.length ∧
    unreadPresenceCount [] ledger = 0 ∧
    unreadPresenceCount events (markAllRead events) = 0 ∧
    ((events.map PresenceEvent.id).Nodup → e0 ∈ events →
      unreadPresenceCount events (toggleRead (markAllRead events) e0.id false) = 1) := by
  refine ⟨?_, rfl, ?_, ?_⟩
  · rw [unreadPresenceCount_eq_countP]
    simp [ledgerGet_nil]
  · rw [unreadPresenceCount_eq_countP]
    rw [List.countP_eq_zero]
    intro e he
    have : ledgerGet (markAllRead events) e.id = true := by
      rw [ledgerGet_markAllRead]
      exact List.any_eq_true.2 ⟨e, he, by simp⟩
    simp [this]
  · intro hnodup hmem
    rw [unreadPresenceCount_eq_countP]
    have hcongr : events.countP (fun e => !ledgerGet
        (toggleRead (markAllRead events) e0.id false) e.id) =
        events.countP fun e => e.id == e0.id := by
      apply List.countP_congr
      intro e he
      rw [ledgerGet_toggleRead]
      by_cases h : (e0.id == e.id) = true
      · have : (e.id == e0.id) = true := by
          simp only [beq_iff_eq] at h ⊢
          exact h.symm
        simp [h, this]
      · have hgm : ledgerGet (markAllRead events) e.id = true := by
          rw [ledgerGet_markAllRead]
          exact List.any_eq_true.2 ⟨e, he, by simp⟩
        have : (e.id == e0.id) = false := by
          simp only [Bool.not_eq_true, beq_eq_false_iff_ne, ne_eq] at h ⊢
          intro hx
          exact h hx.symm
        simp [h, hgm, this]
    rw [hcongr]
    have hmap : events.countP (fun e => e.id == e0.id) =
        (events.map PresenceEvent.id).countP fun x => x == e0.id := by
      rw [List.countP_map]
      rfl
    rw [hmap]
    have hcount : (events.map PresenceEvent.id).count e0.id = 1 :=
      List.count_eq_one_of_mem hnodup (List.mem_map.2 ⟨e0, hmem, rfl⟩)
    simpa [List.count] using hcount

/-- Concrete presence event used by the C8 witness. -/
def pe1w : PresenceEvent :=
  { id := "e1", username := "ann", role := "admin", type := "login", timestamp := 100 }

/-- Second concrete presence event used by the C8 witness. -/
def pe2w : PresenceEvent :=
  { id := "e2", username := "bob", role := "user", type := "logout", timestamp := 200 }

/-- Witness for `c8_unread_alert_counts` on a concrete two-event feed. -/
theorem c8_unread_alert_counts_witness :
    (([pe1w, pe2w].map PresenceEvent.id).Nodup) ∧ pe1w ∈ [pe1w, pe2w] ∧
    unreadPresenceCount [pe1w, pe2w]
      (toggleRead (markAllRead [pe1w, pe2w]) pe1w.id false) = 1 :=
  ⟨by decide, by decide,
    (c8_unread_alert_counts [pe1w, pe2w] [] pe1w).2.2.2 (by decide) (by decide)⟩

/-- Concrete conversation with three unread messages, used by the C9
counterexample and witness. -/
def convEx : ConversationSummary :=
  { id := "c1", participants := [("ann", "user"), ("bob", "admin")]
    lastMessagePreview := some "hi", unreadCount := 3 }

/-- C9 counterexample: when the mark-read call fails, the focus handler
leaves the conversation list untouched, so the unread badge is not zeroed
at all; the zeroing therefore cannot have happened before the server
confirmed. -/
theorem c9_onfocus_counterexample :
    onFocusMarkRead true (some "c1") false [convEx] = [convEx] ∧
    convEx.unreadCount = 3 := by decide

/-- C9 (amended): the focus handler zeroes the unread badge of the selected
conversation only after the mark-read call succeeds; on failure (or without
a session or selection) the list is unchanged, so there is no local zeroing
to roll back. -/
theorem c9_onfocus_markread (convs : List ConversationSummary) (cid : String) :
    onFocusMarkRead true (some cid) false convs = convs ∧
    onFocusMarkRead true none true convs = convs ∧
    onFocusMarkRead false (some cid) true convs = convs ∧
    (∀ c ∈ onFocusMarkRead true (some cid) true convs,
      (c.id = cid → c.unreadCount = 0) ∧ (c.id ≠ cid → c ∈ convs)) := by
  refine ⟨rfl, rfl, rfl, ?_⟩
  intro c hc
  simp only [onFocusMarkRead, if_pos] at hc
  rcases List.mem_map.1 hc with ⟨c0, hc0, hceq⟩
  by_cases h : (c0.id == cid) = true
  · rw [if_pos h] at hceq
    subst hceq
    simp only [beq_iff_eq] at h
    refine ⟨fun _ => rfl, fun hne => absurd h hne⟩
  · rw [if_neg h] at hceq
    subst hceq
    simp only [Bool.not_eq_true, beq_eq_false_iff_ne, ne_eq] at h
    exact ⟨fun hx => absurd hx h, fun _ => hc0⟩

/-- Witness for `c9_onfocus_markread`: at the concrete conversation, the
failed call leaves the list unchanged, and the successful call yields a
member with the selected id whose badge is 0. -/
theorem c9_onfocus_markread_witness :
    onFocusMarkRead true (some "c1") false [convEx] = [convEx] ∧
    ({ convEx with unreadCount := 0 } : ConversationSummary).unreadCount = 0 :=
  ⟨(c9_onfocus_markread [convEx] "c1").1,
    ((c9_onfocus_markread [convEx] "c1").2.2.2 { convEx with unreadCount := 0 }
      (by decide)).1 (by decide)⟩

/-- Witness for `c4_slot_deleted_only_by_submit`: at the concrete offline
world, the timeout tick leaves the slot unchanged while submit clears it. -/
theorem c4_slot_deleted_only_by_submit_witness :
    (offlineMonitorTick wOffEx 310000).slot = wOffEx.slot ∧
    (submitQuiz wOffEx).slot = none :=
  ⟨(c4_slot_deleted_only_by_submit wOffEx).2.2.1 310000,
    (c4_slot_deleted_only_by_submit wOffEx).1⟩

/-- Concrete message used by the C7 witness. -/
def m1w : Message :=
  { id := "m1", conversationId := "c1", senderUsername := "ann", body := "hello"
    createdAt := 9, readBy := [] }

/-- Second concrete message used by the C7 witness; it repeats the id of
`m1w` with a different timestamp, as an overlapping poll would. -/
def m2w : Message :=
  { id := "m1", conversationId := "c1", senderUsername := "ann", body := "hello again"
    createdAt := 5, readBy := [] }

/-- Witness for `c7_mergeMessages_idempotent` on a concrete overlapping
snapshot. -/
theorem c7_mergeMessages_idempotent_witness :
    mergeMessages (mergeMessages [m1w, m2w]) = mergeMessages [m1w, m2w] :=
  (c7_mergeMessages_idempotent [m1w, m2w]).1
